import Mathlib

/-!
Verification of the SKU decoding / enrichment engine and the chunked
Firestore persistence layer of `src/dashboard_app.py`.

The Python code is shallowly embedded: cell values become the inductive
type `Value`, pandas DataFrames become `DataFrame` (an ordered column list
plus rows given as association lists), Python floats are modelled as exact
rationals, and `datetime` instants are modelled as abstract `Nat` instants
whose `isoformat` serialization is a canonical digit string with a
computable partial inverse standing in for `pd.to_datetime`
(non-finite floats, sub-second formatting and the many extra textual date
formats accepted by pandas are outside the model; every theorem below only
evaluates the model at inputs where the stand-ins agree with the library
behaviour).
-/

/-- Cell values of a pandas DataFrame as used by the dashboard: strings,
numbers (exact rationals standing in for Python floats/ints), booleans,
datetime instants (abstract `Nat` instants), and NaN/None/NaT (`null`). -/
inductive Value where
  | str (s : String)
  | num (q : Rat)
  | bool (b : Bool)
  | time (t : Nat)
  | null
deriving DecidableEq, Repr

/-- Whitespace characters recognised by Python's `str.strip` / regex `\s`
(ASCII subset; the spreadsheets only carry ASCII whitespace). -/
def isPyWs (c : Char) : Bool :=
  c = ' ' || c = '\t' || c = '\n' || c = '\r' || c = '\x0b' || c = '\x0c'

/-- Python `str.strip()`: remove leading and trailing whitespace. -/
def pyStrip (s : String) : String :=
  ⟨(s.data.dropWhile isPyWs).reverse.dropWhile isPyWs |>.reverse⟩

/-- Python `re.sub(r'\s+', '', s)`: remove all whitespace. -/
def removeWs (s : String) : String :=
  ⟨s.data.filter (fun c => !isPyWs c)⟩

/-- ASCII upper-casing, Python `str.upper()` on the ASCII data used here. -/
def pyUpper (s : String) : String :=
  ⟨s.data.map Char.toUpper⟩

def isDigitCh (c : Char) : Bool := '0' ≤ c && c ≤ '9'

def isUpperCh (c : Char) : Bool := 'A' ≤ c && c ≤ 'Z'

/-- Numeric value of a decimal digit character. -/
def digitVal (c : Char) : Nat :=
  match c with
  | '0' => 0 | '1' => 1 | '2' => 2 | '3' => 3 | '4' => 4
  | '5' => 5 | '6' => 6 | '7' => 7 | '8' => 8 | '9' => 9
  | _ => 0

/-- Decimal digit character of a value < 10. -/
def digitCh (n : Nat) : Char :=
  match n with
  | 0 => '0' | 1 => '1' | 2 => '2' | 3 => '3' | 4 => '4'
  | 5 => '5' | 6 => '6' | 7 => '7' | 8 => '8' | _ => '9'

/-- Fold a digit list into the `Nat` it denotes (most significant first). -/
def digitsFold (a : Nat) (cs : List Char) : Nat :=
  cs.foldl (fun a c => a * 10 + digitVal c) a

/-- Parse a non-empty all-digit character list; `none` otherwise.  Partial
inverse of decimal printing. -/
def parseDigits (cs : List Char) : Option Nat :=
  if cs ≠ [] ∧ cs.all isDigitCh then some (digitsFold 0 cs) else none

/-- Decimal digit list, most significant first; structural recursion on a
fuel argument so that the kernel can evaluate it (`n` needs at most `n + 1`
divisions by ten). -/
def natDigitsAux : Nat → Nat → List Char
  | 0, _ => []
  | fuel + 1, n =>
    if n < 10 then [digitCh n]
    else natDigitsAux fuel (n / 10) ++ [digitCh (n % 10)]

/-- Decimal digit list of `n`, most significant first. -/
def natDigits (n : Nat) : List Char :=
  natDigitsAux (n + 1) n

/-- Does the character list start with the given pattern? -/
def startsWithCh : List Char → List Char → Bool
  | _, [] => true
  | [], _ :: _ => false
  | c :: cs, d :: ds => c = d && startsWithCh cs ds

/-- Python `s.replace(old, new)` on character lists: replace all
non-overlapping occurrences left to right (`old` is never empty in the
modelled code).  Structural recursion on a fuel argument so that the
kernel can evaluate it; every step consumes at least one character, so
`s.length` fuel suffices. -/
def replaceChAux : Nat → List Char → List Char → List Char → List Char
  | 0, s, _, _ => s
  | _ + 1, [], _, _ => []
  | fuel + 1, c :: t, old, new =>
    if startsWithCh (c :: t) old ∧ old ≠ [] then
      new ++ replaceChAux fuel ((c :: t).drop old.length) old new
    else
      c :: replaceChAux fuel t old new

/-- Python `s.replace(old, new)` on strings. -/
def pyReplace (s old new : String) : String :=
  ⟨replaceChAux s.data.length s.data old.data new.data⟩

/-- Python string coercion `str(x)` for the cell values that reach it in
the modelled code paths (pandas renders missing values as the string
`"nan"`). -/
def pyStr (v : Value) : String :=
  match v with
  | .str s => s
  | .num q => toString q
  | .bool b => if b then "True" else "False"
  | .time t => ⟨natDigits t⟩
  | .null => "nan"

/- ### Python `float(...)` on cleaned strings -/

/-- The rational `m * 10 ^ p` built from kernel-computable primitives
(`Rat.divInt`, `Nat.pow`) instead of the field operations on `Rat`. -/
def ratOfScaled (m : Int) (p : Int) : Rat :=
  if 0 ≤ p then Rat.divInt (m * ((10 ^ p.toNat : Nat) : Int)) 1
  else Rat.divInt m ((10 ^ (-p).toNat : Nat) : Int)

/-- Mantissa parsing for Python's `float(str)` grammar: leading digits,
optionally a dot and more digits.  Returns the digit value, the number of
fractional digits and the unconsumed rest.  Non-finite literals
(`nan`, `inf`) are outside the model. -/
def parseMantissa (cs : List Char) : Option (Nat × Nat × List Char) :=
  let ip := cs.takeWhile isDigitCh
  let r1 := cs.dropWhile isDigitCh
  match r1 with
  | '.' :: r2 =>
    let fp := r2.takeWhile isDigitCh
    let r3 := r2.dropWhile isDigitCh
    if ip = [] ∧ fp = [] then none
    else some (digitsFold (digitsFold 0 ip) fp, fp.length, r3)
  | _ =>
    if ip = [] then none else some (digitsFold 0 ip, 0, r1)

/-- Exponent suffix `e±ddd` of Python float literals; the whole rest of the
input must be consumed. -/
def parseExponent (cs : List Char) : Option Int :=
  match cs with
  | 'e' :: r | 'E' :: r =>
    match r with
    | '+' :: r2 =>
      if r2 ≠ [] ∧ r2.all isDigitCh then some ((digitsFold 0 r2 : Nat) : Int) else none
    | '-' :: r2 =>
      if r2 ≠ [] ∧ r2.all isDigitCh then some (-((digitsFold 0 r2 : Nat) : Int)) else none
    | _ =>
      if r ≠ [] ∧ r.all isDigitCh then some ((digitsFold 0 r : Nat) : Int) else none
  | _ => none

/-- Python `float(s)` on a finite decimal literal, as an exact rational;
`none` models `ValueError`. -/
def pyFloat (s : String) : Option Rat :=
  let cs := (pyStrip s).data
  let signed : Bool × List Char :=
    match cs with
    | '-' :: r => (true, r)
    | '+' :: r => (false, r)
    | r => (false, r)
  match parseMantissa signed.2 with
  | none => none
  | some (m, fl, rest) =>
    let e : Option Int :=
      match rest with
      | [] => some 0
      | _ => parseExponent rest
    e.map (fun e =>
      ratOfScaled (if signed.1 then -(m : Int) else (m : Int)) (e - (fl : Int)))

/- ### clean_financial_string -/

/-- Index of the last occurrence of `c` in `s`, or `-1` when absent:
Python `s.rfind(c)`. -/
def rfind (s : String) (c : Char) : Int :=
  (s.data.foldl (fun (p : Int × Int) ch => (p.1 + 1, if ch = c then p.1 else p.2)) (0, -1)).2

/-- The currency-marker stripping step of `clean_financial_string`:
`str(s).strip()`, then `.replace('Rp', '').replace(' ', '')`. -/
def cleanPre (s : String) : String :=
  pyReplace (pyReplace (pyStrip s) "Rp" "") " " ""

/-- The comma-is-decimal-separator test of `clean_financial_string`:
`',' in s and (s.rfind(',') > s.rfind('.'))`. -/
def euroCond (s : String) : Bool :=
  s.data.contains ',' && rfind s ',' > rfind s '.'

/-- The fully cleaned string handed to `float(...)` by
`clean_financial_string`: European/Indonesian convention removes the dots
and turns the comma into the decimal dot, the American convention strips
the commas. -/
def cleanedString (s : String) : String :=
  let t := cleanPre s
  if euroCond t then pyReplace (pyReplace t "." "") "," "." else pyReplace t "," ""

/-- `clean_financial_string` from `src/dashboard_app.py`: normalises a
locale-ambiguous financial string (or already-numeric value) to a number,
returning `0.0` for missing input or parse failure.  Python `bool` is an
`int` subclass, hence the `bool` case. -/
def clean_financial_string (v : Value) : Rat :=
  match v with
  | .null => 0
  | .num q => q
  | .bool b => if b then 1 else 0
  | _ => (pyFloat (cleanedString (pyStr v))).getD 0

/- ### DataFrames and association-list primitives -/

/-- A DataFrame row: association list from column name to cell value.
A missing key models a NaN cell of a column the table does not carry for
that row. -/
abbrev Row := List (String × Value)

/-- Python dict / pandas cell read: value of the first entry with the key. -/
def alGet {α : Type} (r : List (String × α)) (k : String) : Option α :=
  match r with
  | [] => none
  | (k', v) :: t => if k' = k then some v else alGet t k

/-- Python dict write `d[k] = v`: replace in place, or append a new key. -/
def alSet {α : Type} (r : List (String × α)) (k : String) (v : α) : List (String × α) :=
  match r with
  | [] => [(k, v)]
  | (k', v') :: t => if k' = k then (k, v) :: t else (k', v') :: alSet t k v

/-- A pandas DataFrame: ordered column list and ordered rows. -/
structure DataFrame where
  cols : List String
  rows : List Row
deriving DecidableEq, Repr

/-- Python slice `s[:n]`. -/
def strTake (s : String) (n : Nat) : String := ⟨s.data.take n⟩

/-- Python slice `s[-n:]` (for `n > 0`): the last `min n len` characters. -/
def strTakeRight (s : String) (n : Nat) : String := ⟨s.data.drop (s.data.length - n)⟩

/- ### SKU decoder and enrichment engine -/

/-- The nested `sku_decoder` dict of `load_sku_master`: one bucket of
`code → meaning` per code category; the eight Python dict keys
`CATEGORY, SUB_CATEGORY, SEASON, WARNA, UKURAN, TAHUN PRODUKSI,
SINGKATAN_NAMA_PRODUK, DEFFECT` become the eight fields. -/
structure SkuDecoder where
  category : List (String × String)
  sub_category : List (String × String)
  season : List (String × String)
  warna : List (String × String)
  ukuran : List (String × String)
  tahun_produksi : List (String × String)
  singkatan_nama_produk : List (String × String)
  deffect : List (String × String)
deriving DecidableEq, Repr

/-- The decoder with all buckets empty (also the model of passing the
empty dict `{}` to the enrichment function). -/
def SkuDecoder.empty : SkuDecoder := ⟨[], [], [], [], [], [], [], []⟩

/-- The enrichment columns added by `enrich_dataframe_with_sku_info`, in
assignment order. -/
def enrichColNames : List String :=
  ["Category", "Sub Category", "Tahun Produksi", "Season",
   "Singkatan Nama Produk", "Warna Produk", "Size Produk", "Is Deffect"]

/-- The per-column default `"Unknown " + col.replace(" ", "")`. -/
def sentinelFor (col : String) : String :=
  "Unknown " ++ pyReplace col " " ""

/-- One step of the default-column loops (lines 243–251 and 267–274 of the
source): a column the table lacks is created holding the sentinel; an
existing column has its NaN cells filled with the sentinel. -/
def initEnrichCell (cols : List String) (r : Row) (col : String) : Row :=
  if cols.contains col then
    match alGet r col with
    | none => alSet r col (.str (sentinelFor col))
    | some .null => alSet r col (.str (sentinelFor col))
    | some _ => r
  else
    alSet r col (.str (sentinelFor col))

/-- Row-level effect of the default-column loops over all eight
enrichment columns. -/
def initEnrichRow (cols : List String) (r : Row) : Row :=
  enrichColNames.foldl (initEnrichCell cols) r

/-- The table's column list after enrichment: new enrichment columns are
appended in assignment order. -/
def enrichedCols (cols : List String) : List String :=
  cols ++ enrichColNames.filter (fun c => !cols.contains c)

/-- Does position `p` of `cs` start the anchored tail
`([0-9]\x7b2\x7d|D[0-9])([A-Z]\x7b3\x7d)[ -]([A-Z]+)-([A-Z]\x7b3\x7d)([0-9]\x7b2\x7d)$`
of the SKU regex?  Because the last three groups have fixed width and the
pattern is end-anchored, the product-abbreviation group is forced to span
positions `p+6 .. n-7`. -/
def tailMatchAt (cs : List Char) (p : Nat) : Bool :=
  let n := cs.length
  let at_ := fun i => cs.getD i '!'
  decide (p + 13 ≤ n) &&
  ((isDigitCh (at_ p) && isDigitCh (at_ (p+1))) || (at_ p = 'D' && isDigitCh (at_ (p+1)))) &&
  isUpperCh (at_ (p+2)) && isUpperCh (at_ (p+3)) && isUpperCh (at_ (p+4)) &&
  (at_ (p+5) = ' ' || at_ (p+5) = '-') &&
  ((cs.drop (p+6)).take (n - p - 12)).all isUpperCh &&
  (at_ (n-6) = '-') &&
  isUpperCh (at_ (n-5)) && isUpperCh (at_ (n-4)) && isUpperCh (at_ (n-3)) &&
  isDigitCh (at_ (n-2)) && isDigitCh (at_ (n-1))

/-- `re.search` of the SKU pattern
`(?:[A-Z0-9]+?)?([0-9]\x7b2\x7d|D[0-9])([A-Z]\x7b3\x7d)[ -]([A-Z]+)-([A-Z]\x7b3\x7d)([0-9]\x7b2\x7d)$`:
the optional lazy prefix and the search's increasing start positions
together make the successful match the one whose year/defect group starts
at the smallest possible position, so the model scans positions in
increasing order. -/
def findMatchPos (cs : List Char) : Option Nat :=
  (List.range cs.length).find? (fun p => tailMatchAt cs p)

/-- The four captured groups (year-or-defect, season, product
abbreviation, color) of `str.extract` with the SKU regex; `none` when the
pattern does not match. -/
def regexExtract (s : String) : Option (String × String × String × String) :=
  let cs := s.data
  let n := cs.length
  (findMatchPos cs).map (fun p =>
    (⟨(cs.drop p).take 2⟩, ⟨(cs.drop (p+2)).take 3⟩,
     ⟨(cs.drop (p+6)).take (n - p - 12)⟩, ⟨(cs.drop (n-5)).take 3⟩))

/-- Row-level effect of the vectorized enrichment body of
`enrich_dataframe_with_sku_info` (each column assignment of the source
acts independently on every row, so the batch mapping is a per-row
function): slicing lookups for size/category/sub-category, regex
extraction, defect flag, year resolution with the (dead) defect fallback,
and season/product/color lookups. -/
def enrichRow (dec : SkuDecoder) (cols : List String) (r : Row) : Row :=
  let sku_upper := pyUpper (pyStr ((alGet r "SKU").getD .null))
  let r := initEnrichRow cols r
  let r := alSet r "Size Produk"
    (.str ((alGet dec.ukuran (strTakeRight sku_upper 2)).getD "Unknown Ukuran"))
  let r := alSet r "Category"
    (.str ((alGet dec.category (strTake sku_upper 3)).getD "Unknown Category"))
  let r := alSet r "Sub Category"
    (.str ((alGet dec.sub_category (strTake sku_upper 4)).getD "Unknown Sub Category"))
  let parts := (regexExtract sku_upper).getD ("", "", "", "")
  let g1 := parts.1
  let g2 := parts.2.1
  let g3 := parts.2.2.1
  let g4 := parts.2.2.2
  let isD := startsWithCh g1.data ['D']
  let r := alSet r "Is Deffect" (.bool isD)
  let tahun1 : Value :=
    match alGet dec.tahun_produksi g1 with
    | some y => .str y
    | none => (alGet r "Tahun Produksi").getD .null
  let r := alSet r "Tahun Produksi" tahun1
  let r :=
    if isD = true ∧ tahun1 = .str "Unknown Tahun" then
      alSet r "Tahun Produksi" (.str ⟨natDigits (2020 + digitVal (g1.data.getD 1 '0'))⟩)
    else r
  let r := alSet r "Season"
    (match alGet dec.season g2 with
     | some v => .str v
     | none => (alGet r "Season").getD .null)
  let r := alSet r "Singkatan Nama Produk"
    (match alGet dec.singkatan_nama_produk g3 with
     | some v => .str v
     | none => (alGet r "Singkatan Nama Produk").getD .null)
  let r := alSet r "Warna Produk"
    (match alGet dec.warna g4 with
     | some v => .str v
     | none => (alGet r "Warna Produk").getD .null)
  r

/-- `enrich_dataframe_with_sku_info` from `src/dashboard_app.py`.  An empty
table or one without a `SKU` column only gets the default "Unknown"
columns; otherwise every row is enriched via slicing and the regex
extraction. -/
def enrich_dataframe_with_sku_info (df : DataFrame) (dec : SkuDecoder) : DataFrame :=
  if df.rows.isEmpty || !df.cols.contains "SKU" then
    ⟨enrichedCols df.cols, df.rows.map (initEnrichRow df.cols)⟩
  else
    ⟨enrichedCols df.cols, df.rows.map (enrichRow dec df.cols)⟩

/- ### SKU master loader -/

/-- The eight canonical bucket names of the decoder dict, as an inductive
key type (`TAHUN_PRODUKSI` stands for the dict key `"TAHUN PRODUKSI"`,
`SINGKATAN_NAMA_PRODUK` for `"SINGKATAN_NAMA_PRODUK"`). -/
inductive JenisKey where
  | CATEGORY
  | SUB_CATEGORY
  | SEASON
  | WARNA
  | UKURAN
  | TAHUN_PRODUKSI
  | SINGKATAN_NAMA_PRODUK
  | DEFFECT
deriving DecidableEq, Repr

/-- `jenis_normalization_map_raw` from `load_sku_master`: spelling
variations of the `JENIS` column mapped to the canonical bucket. -/
def jenisNormalizationMapRaw : List (String × JenisKey) :=
  [("CATEGORY", .CATEGORY),
   ("SUB CATEGORY", .SUB_CATEGORY),
   ("SUB_CATEGORY", .SUB_CATEGORY),
   ("SEASON", .SEASON),
   ("WARNA", .WARNA),
   ("UKURAN", .UKURAN),
   ("TAHUN PRODUKSI", .TAHUN_PRODUKSI),
   ("TAHUN LAUNCHING", .TAHUN_PRODUKSI),
   ("TAHUN", .TAHUN_PRODUKSI),
   ("SINGKATAN DARI NAMA PRODUK", .SINGKATAN_NAMA_PRODUK),
   ("NAMA PRODUK", .SINGKATAN_NAMA_PRODUK),
   ("DEFFECT", .DEFFECT)]

/-- The normalized lookup map: every key with all whitespace removed and
upper-cased. -/
def jenisNormalizationMap : List (String × JenisKey) :=
  jenisNormalizationMapRaw.map (fun p => (pyUpper (removeWs p.1), p.2))

/-- Bucket selection `sku_decoder[jenis_key]`. -/
def getBucket (d : SkuDecoder) : JenisKey → List (String × String)
  | .CATEGORY => d.category
  | .SUB_CATEGORY => d.sub_category
  | .SEASON => d.season
  | .WARNA => d.warna
  | .UKURAN => d.ukuran
  | .TAHUN_PRODUKSI => d.tahun_produksi
  | .SINGKATAN_NAMA_PRODUK => d.singkatan_nama_produk
  | .DEFFECT => d.deffect

/-- Bucket write `sku_decoder[jenis_key][code] = arti`. -/
def setBucket (d : SkuDecoder) (k : JenisKey) (code arti : String) : SkuDecoder :=
  match k with
  | .CATEGORY => { d with category := alSet d.category code arti }
  | .SUB_CATEGORY => { d with sub_category := alSet d.sub_category code arti }
  | .SEASON => { d with season := alSet d.season code arti }
  | .WARNA => { d with warna := alSet d.warna code arti }
  | .UKURAN => { d with ukuran := alSet d.ukuran code arti }
  | .TAHUN_PRODUKSI => { d with tahun_produksi := alSet d.tahun_produksi code arti }
  | .SINGKATAN_NAMA_PRODUK =>
      { d with singkatan_nama_produk := alSet d.singkatan_nama_produk code arti }
  | .DEFFECT => { d with deffect := alSet d.deffect code arti }

/-- `str(row.get('CODE', '')).strip().upper()`. -/
def masterRowCode (r : Row) : String :=
  pyUpper (pyStrip (pyStr ((alGet r "CODE").getD (.str ""))))

/-- `str(row.get('ARTI', '')).strip()`. -/
def masterRowArti (r : Row) : String :=
  pyStrip (pyStr ((alGet r "ARTI").getD (.str "")))

/-- The canonical bucket of a master row: the `JENIS` cell stripped,
upper-cased, whitespace-removed and looked up in the normalization map;
`none` is the unrecognized-category case (row skipped with a warning). -/
def masterRowJenis (r : Row) : Option JenisKey :=
  alGet jenisNormalizationMap
    (removeWs (pyUpper (pyStrip (pyStr ((alGet r "JENIS").getD (.str ""))))))

/-- One iteration of the `df_sku_master.iterrows()` loop of
`load_sku_master`: a row with a non-empty code and a recognized category
writes `arti` into the bucket, anything else leaves the decoder
unchanged. -/
def load_sku_master_row (d : SkuDecoder) (r : Row) : SkuDecoder :=
  match masterRowJenis r with
  | some key => if masterRowCode r ≠ "" then setBucket d key (masterRowCode r) (masterRowArti r) else d
  | none => d

/-- `load_sku_master` from `src/dashboard_app.py` on the parsed spreadsheet
rows.  Missing required columns abort the load with an empty dict (the
Excel/Streamlit I/O around the loop is outside the model). -/
def load_sku_master (cols : List String) (rows : List Row) : SkuDecoder :=
  if "CODE" ∈ cols ∧ "ARTI" ∈ cols ∧ "JENIS" ∈ cols then
    rows.foldl load_sku_master_row SkuDecoder.empty
  else SkuDecoder.empty

/- ### Association-list lemmas -/

theorem alGet_alSet_self {α : Type} (r : List (String × α)) (k : String) (v : α) :
    alGet (alSet r k v) k = some v := by
  induction r with
  | nil => simp [alSet, alGet]
  | cons p t ih =>
    obtain ⟨k', v'⟩ := p
    by_cases h : k' = k
    · simp [alSet, h, alGet]
    · simp [alSet, h, alGet, ih]

theorem alGet_alSet_ne {α : Type} (r : List (String × α)) (k k' : String) (v : α)
    (h : k' ≠ k) : alGet (alSet r k' v) k = alGet r k := by
  induction r with
  | nil => simp [alSet, alGet, h]
  | cons p t ih =>
    obtain ⟨k₀, v₀⟩ := p
    by_cases h0 : k₀ = k'
    · subst h0
      simp [alSet, alGet, h]
    · simp [alSet, h0, alGet, ih]

theorem alGet_append {α : Type} (r t : List (String × α)) (k : String) :
    alGet (r ++ t) k = ((alGet r k).rec (alGet t k) (fun v => some v) : Option α) := by
  induction r with
  | nil => simp [alGet]
  | cons p s ih =>
    obtain ⟨k', v'⟩ := p
    by_cases h : k' = k <;> simp [alGet, h, ih]

theorem alSet_of_none {α : Type} (r : List (String × α)) (k : String) (v : α)
    (h : alGet r k = none) : alSet r k v = r ++ [(k, v)] := by
  induction r with
  | nil => simp [alSet]
  | cons p t ih =>
    obtain ⟨k', v'⟩ := p
    by_cases h0 : k' = k
    · simp [alGet, h0] at h
    · simp [alGet, h0] at h
      simp [alSet, h0, ih h]

theorem alSet_keys_of_mem {α : Type} (r : List (String × α)) (k : String) (v : α)
    (h : k ∈ r.map Prod.fst) : (alSet r k v).map Prod.fst = r.map Prod.fst := by
  induction r with
  | nil => simp at h
  | cons p t ih =>
    obtain ⟨k', v'⟩ := p
    by_cases h0 : k' = k
    · simp [alSet, h0]
    · have h' : k ∈ t.map Prod.fst := by
        simp only [List.map_cons, List.mem_cons] at h
        rcases h with h | h
        · exact absurd h.symm h0
        · exact h
      simp [alSet, h0, ih h']

/- ### Chunked Firestore persistence -/

/-- `datetime.isoformat()` for the abstract instants of the model: a
canonical digit string (injective, with `toDatetime` as partial inverse),
standing in for the ISO-8601 text of the library. -/
def isoformat (t : Nat) : String := ⟨natDigits t⟩

/-- `pd.to_datetime(_, errors='coerce')` on a single cell: text that parses
as a serialized instant becomes a timestamp, anything unparseable becomes
`NaT` (`null`), timestamps pass through.  (The pandas numeric-epoch
interpretation of numbers is outside the model.) -/
def toDatetime (v : Value) : Value :=
  match v with
  | .str s =>
    match parseDigits s.data with
    | some t => .time t
    | none => .null
  | .time t => .time t
  | _ => .null

/-- The per-cell serialization of `save_data_for_admin`:
`x.isoformat() if isinstance(x, datetime) else x`. -/
def serializeCell (v : Value) : Value :=
  match v with
  | .time t => .str (isoformat t)
  | v => v

/-- Row serialization (`df.map(...)` acts cell-wise). -/
def serializeRow (r : Row) : Row :=
  r.map (fun p => (p.1, serializeCell p.2))

/-- The per-table main Firestore document: the chunking manifest written by
`save_data_for_admin` plus the `data` field of legacy single-document
saves. -/
structure MainDoc where
  chunked : Bool
  num_chunks : Nat
  num_records : Nat
  legacyData : Option (List Row)
deriving DecidableEq, Repr

/-- The Firestore state for one table name: the optional main document and
the `chunks` subcollection (document id → the `data` row array). -/
structure AdminTableStore where
  mainDoc : Option MainDoc
  chunks : List (String × List Row)
deriving DecidableEq, Repr

def MAX_ROWS_PER_CHUNK : Nat := 500

/-- `save_data_for_admin` for one table: all previously stored chunks and
the main document are deleted first (the previous store is discarded
wholesale); an empty table leaves nothing written; otherwise rows are
serialized, the manifest `{chunked, num_chunks, num_records}` is written,
and ceil-div many `chunk_i` documents hold 500-row slices. -/
def save_data_for_admin (df : DataFrame) (_prev : AdminTableStore) : AdminTableStore :=
  if df.rows.isEmpty then { mainDoc := none, chunks := [] }
  else
    let records_to_save := df.rows.map serializeRow
    let num_records := records_to_save.length
    let num_chunks := (num_records + MAX_ROWS_PER_CHUNK - 1) / MAX_ROWS_PER_CHUNK
    { mainDoc := some ⟨true, num_chunks, num_records, none⟩,
      chunks := (List.range num_chunks).map (fun i =>
        ("chunk_" ++ ⟨natDigits i⟩,
         (records_to_save.drop (i * MAX_ROWS_PER_CHUNK)).take MAX_ROWS_PER_CHUNK)) }

/-- Strict lexicographic (byte) order on character lists: the order in
which Firestore returns the documents of a collection when no explicit
ordering is given — ascending by document id. -/
def lexLtCh : List Char → List Char → Bool
  | [], [] => false
  | [], _ :: _ => true
  | _ :: _, [] => false
  | a :: as, b :: bs => if a < b then true else if b < a then false else lexLtCh as bs

def docIdLt (a b : String) : Bool := lexLtCh a.data b.data

def insertByDocId (x : String × List Row) :
    List (String × List Row) → List (String × List Row)
  | [] => [x]
  | y :: t => if docIdLt y.1 x.1 then y :: insertByDocId x t else x :: y :: t

/-- `chunks_collection_ref.stream()`: the chunk documents in ascending
document-id order (insertion sort; ids are unique). -/
def sortByDocId : List (String × List Row) → List (String × List Row)
  | [] => []
  | x :: t => insertByDocId x (sortByDocId t)

/-- All records of the chunk stream, concatenated in arrival order
(`all_records.extend(...)` per streamed chunk document). -/
def streamRecords (st : AdminTableStore) : List Row :=
  ((sortByDocId st.chunks).map (fun p => p.2)).flatten

/-- Column list of `pd.DataFrame.from_records`: union of the row keys in
first-occurrence order. -/
def unionKeys (recs : List Row) : List String :=
  recs.foldl (fun acc r => acc ++ (r.map Prod.fst).filter (fun k => !acc.contains k)) []

/-- The `Tanggal` re-parsing applied to one row on load: the column is
overwritten with `pd.to_datetime` of its cell. -/
def fixTanggalRow (r : Row) : Row :=
  alSet r "Tanggal" (toDatetime ((alGet r "Tanggal").getD .null))

/-- The row list a load would reassemble before DataFrame construction. -/
def rawRecords (st : AdminTableStore) : List Row :=
  match st.mainDoc with
  | some m => if m.chunked then streamRecords st else m.legacyData.getD []
  | none => []

/-- `pd.DataFrame.from_records` followed by the `Tanggal` conversion of
`load_data_from_admin`; an empty record list keeps the default empty
DataFrame. -/
def buildLoadedDF (recs : List Row) : DataFrame :=
  if recs.isEmpty then ⟨[], []⟩
  else
    let cols := unionKeys recs
    ⟨cols, if cols.contains "Tanggal" then recs.map fixTanggalRow else recs⟩

/-- `load_data_from_admin` for one table: manifest present and marked
chunked → reassemble the chunk stream; otherwise fall back to the legacy
single-document `data` field; nothing stored → empty table (the
sales-specific synthesis of a missing `No Transaksi` column only adds a
new column and is outside the model). -/
def load_data_from_admin (st : AdminTableStore) : DataFrame :=
  match st.mainDoc with
  | some m =>
    if m.chunked then buildLoadedDF (streamRecords st)
    else
      match m.legacyData with
      | some d => buildLoadedDF d
      | none => ⟨[], []⟩
  | none => ⟨[], []⟩

/-- The effect of one save–load round trip on a row: serialization on
save, then the `Tanggal` re-parse on load when the table carries that
column. -/
def roundtripRow (cols : List String) (r : Row) : Row :=
  if cols.contains "Tanggal" then fixTanggalRow (serializeRow r) else serializeRow r

/-- Is the optional cell a timestamp (or absent)?  Decidable form of the
hypothesis of the amended round-trip claim. -/
def isTimeOpt : Option Value → Bool
  | some (.time _) => true
  | none => true
  | _ => false

/-- Rows `0 … 5000` of the order-bug witness table. -/
def bigTableRows : List Row :=
  (List.range 5001).map (fun i => [("id", Value.str ⟨natDigits i⟩)])

/-- A 5001-row table: the smallest shape on which the chunk count exceeds
ten and document-id order stops agreeing with numeric chunk order. -/
def bigTable : DataFrame := ⟨["id"], bigTableRows⟩

/- ### Claims C5 and C7: the financial normalizer -/

theorem clean_financial_string_str (s : String) :
    clean_financial_string (.str s) = (pyFloat (cleanedString s)).getD 0 := rfl

/-- Claim C5: a numeric string with a comma positioned after the last dot is
read in the European/Indonesian convention (dots removed, comma becomes the
decimal point); otherwise commas are stripped as thousands separators.  In
particular both `"1.234.567,89"` and `"1,234,567.89"` normalise to
`1234567.89`. -/
theorem C5_locale_normalization (s₁ s₂ : String)
    (h₁ : euroCond (cleanPre s₁) = true) (h₂ : euroCond (cleanPre s₂) = false) :
    clean_financial_string (.str s₁)
      = (pyFloat (pyReplace (pyReplace (cleanPre s₁) "." "") "," ".")).getD 0
    ∧ clean_financial_string (.str s₂)
      = (pyFloat (pyReplace (cleanPre s₂) "," "")).getD 0
    ∧ clean_financial_string (.str "1.234.567,89") = (1234567.89 : Rat)
    ∧ clean_financial_string (.str "1,234,567.89") = (1234567.89 : Rat) := by
  have e₁ : clean_financial_string (.str "1.234.567,89") = Rat.divInt 123456789 100 := by
    decide
  have e₂ : clean_financial_string (.str "1,234,567.89") = Rat.divInt 123456789 100 := by
    decide
  have ed : (Rat.divInt 123456789 100 : Rat) = (1234567.89 : Rat) := by
    rw [Rat.divInt_eq_div]
    norm_num
  refine ⟨?_, ?_, e₁.trans ed, e₂.trans ed⟩
  · rw [clean_financial_string_str, cleanedString, if_pos h₁]
  · rw [clean_financial_string_str, cleanedString, if_neg (by simp [h₂])]

theorem C5_locale_normalization_witness :
    clean_financial_string (.str "1.234.567,89")
      = (pyFloat (pyReplace (pyReplace (cleanPre "1.234.567,89") "." "") "," ".")).getD 0
    ∧ clean_financial_string (.str "1,234,567.89")
      = (pyFloat (pyReplace (cleanPre "1,234,567.89") "," "")).getD 0
    ∧ clean_financial_string (.str "1.234.567,89") = (1234567.89 : Rat)
    ∧ clean_financial_string (.str "1,234,567.89") = (1234567.89 : Rat) :=
  C5_locale_normalization "1.234.567,89" "1,234,567.89" (by decide) (by decide)

/-- Claim C7: `clean_financial_string` is a total function (it never raises):
missing/null input yields `0.0`, and any string whose cleaned form still
fails to parse as a float — such as `"not a number"` — yields `0.0`. -/
theorem C7_never_raises (s : String) (h : pyFloat (cleanedString s) = none) :
    clean_financial_string .null = 0
    ∧ clean_financial_string (.str s) = 0
    ∧ clean_financial_string (.str "not a number") = 0 := by
  refine ⟨rfl, ?_, by decide⟩
  rw [clean_financial_string_str, h]
  rfl

theorem C7_never_raises_witness :
    clean_financial_string .null = 0
    ∧ clean_financial_string (.str "not a number") = 0
    ∧ clean_financial_string (.str "not a number") = 0 :=
  C7_never_raises "not a number" (by decide)

/- ### Bucket lemmas and claim C9 -/

theorem getBucket_setBucket_same (d : SkuDecoder) (k : JenisKey) (c a : String) :
    getBucket (setBucket d k c a) k = alSet (getBucket d k) c a := by
  cases k <;> rfl

theorem getBucket_setBucket_ne (d : SkuDecoder) (kw kr : JenisKey) (c a : String)
    (h : kw ≠ kr) : getBucket (setBucket d kw c a) kr = getBucket d kr := by
  cases kw <;> cases kr <;> simp_all [setBucket, getBucket]

theorem load_row_preserves (d : SkuDecoder) (r2 : Row) (key : JenisKey) (code : String)
    (h : ¬ (masterRowJenis r2 = some key ∧ masterRowCode r2 = code ∧ masterRowCode r2 ≠ "")) :
    alGet (getBucket (load_sku_master_row d r2) key) code = alGet (getBucket d key) code := by
  rw [load_sku_master_row]
  cases hj : masterRowJenis r2 with
  | none => rfl
  | some key2 =>
    by_cases hc : masterRowCode r2 ≠ ""
    · simp only [if_pos hc]
      by_cases hk : key2 = key
      · subst hk
        have hne : masterRowCode r2 ≠ code := fun he => h ⟨hj, he, hc⟩
        rw [getBucket_setBucket_same, alGet_alSet_ne _ _ _ _ hne]
      · rw [getBucket_setBucket_ne d key2 key _ _ hk]
    · simp only [if_neg hc]

theorem foldl_load_row_preserves (post : List Row) (d : SkuDecoder) (key : JenisKey)
    (code : String)
    (hpost : ∀ r2 ∈ post,
      ¬ (masterRowJenis r2 = some key ∧ masterRowCode r2 = code ∧ masterRowCode r2 ≠ "")) :
    alGet (getBucket (post.foldl load_sku_master_row d) key) code
      = alGet (getBucket d key) code := by
  induction post generalizing d with
  | nil => rfl
  | cons r2 t ih =>
    rw [List.foldl_cons, ih _ (fun x hx => hpost x (by simp [hx]))]
    exact load_row_preserves d r2 key code (hpost r2 (by simp))

/-- Claim C9: during master-table load, among valid rows (non-empty code,
recognized category) carrying the same code under the same canonical
category, the last one wins — the decoder ends up mapping the code to the
`ARTI` of the last such row, regardless of what earlier rows wrote. -/
theorem C9_duplicate_code_last_write_wins (cols : List String) (pre post : List Row)
    (r : Row) (key : JenisKey)
    (hcols : "CODE" ∈ cols ∧ "ARTI" ∈ cols ∧ "JENIS" ∈ cols)
    (hkey : masterRowJenis r = some key)
    (hcode : masterRowCode r ≠ "")
    (hpost : ∀ r2 ∈ post,
      ¬ (masterRowJenis r2 = some key ∧ masterRowCode r2 = masterRowCode r
          ∧ masterRowCode r2 ≠ "")) :
    alGet (getBucket (load_sku_master cols (pre ++ r :: post)) key) (masterRowCode r)
      = some (masterRowArti r) := by
  rw [load_sku_master, if_pos hcols, List.foldl_append, List.foldl_cons]
  rw [foldl_load_row_preserves post _ key _ hpost]
  simp only [load_sku_master_row, hkey, if_pos hcode]
  rw [getBucket_setBucket_same, alGet_alSet_self]

theorem C9_duplicate_code_last_write_wins_witness :
    alGet (getBucket (load_sku_master ["CODE", "ARTI", "JENIS"]
        ([[("CODE", .str "RED"), ("ARTI", .str "First meaning"), ("JENIS", .str "WARNA")]]
          ++ [("CODE", Value.str "RED"), ("ARTI", .str "Second meaning"),
              ("JENIS", .str "WARNA")]
          :: [[("CODE", .str "BLU"), ("ARTI", .str "Blue"), ("JENIS", .str "WARNA")]]))
        .WARNA)
      (masterRowCode [("CODE", Value.str "RED"), ("ARTI", .str "Second meaning"),
        ("JENIS", .str "WARNA")])
      = some (masterRowArti [("CODE", Value.str "RED"), ("ARTI", .str "Second meaning"),
        ("JENIS", .str "WARNA")]) :=
  C9_duplicate_code_last_write_wins ["CODE", "ARTI", "JENIS"]
    [[("CODE", .str "RED"), ("ARTI", .str "First meaning"), ("JENIS", .str "WARNA")]]
    [[("CODE", .str "BLU"), ("ARTI", .str "Blue"), ("JENIS", .str "WARNA")]]
    [("CODE", Value.str "RED"), ("ARTI", .str "Second meaning"), ("JENIS", .str "WARNA")]
    .WARNA (by decide) (by decide) (by decide) (by decide)

/- ### Chunk arithmetic and digit-string lemmas -/

/-- Concatenating the 500-row slices in numeric index order reproduces the
original list: the chunk loop of `save_data_for_admin` partitions the
records. -/
theorem flatten_chunks {α : Type} (l : List α) :
    ((List.range ((l.length + 499) / 500)).map
      (fun i => (l.drop (i * 500)).take 500)).flatten = l := by
  suffices H : ∀ (n : Nat) (l : List α), l.length ≤ n →
      ((List.range ((l.length + 499) / 500)).map
        (fun i => (l.drop (i * 500)).take 500)).flatten = l from H l.length l le_rfl
  intro n
  induction n with
  | zero =>
    intro l hl
    have h0 : l = [] := List.length_eq_zero.mp (Nat.le_zero.mp hl)
    subst h0
    simp
  | succ n ih =>
    intro l hl
    rcases eq_or_ne l [] with hnil | hnil
    · subst hnil; simp
    · have hlen : 1 ≤ l.length := by
        cases l
        · exact absurd rfl hnil
        · simp
      have hk : (l.length + 499) / 500 = (l.length - 1) / 500 + 1 := by omega
      rw [hk, List.range_succ_eq_map, List.map_cons, List.flatten_cons, List.map_map]
      have harg : ((fun i => (l.drop (i * 500)).take 500) ∘ Nat.succ)
          = fun i => ((l.drop 500).drop (i * 500)).take 500 := by
        funext i
        simp only [Function.comp]
        rw [List.drop_drop]
        congr 2
        omega
      rw [harg]
      by_cases hle : l.length ≤ 500
      · have hm : (l.length - 1) / 500 = 0 := by omega
        rw [hm]
        simp [List.take_of_length_le hle]
      · have hm : ((l.drop 500).length + 499) / 500 = (l.length - 1) / 500 := by
          rw [List.length_drop]
          omega
        have hdrop : ((List.range (((l.drop 500).length + 499) / 500)).map
            (fun i => ((l.drop 500).drop (i * 500)).take 500)).flatten = l.drop 500 :=
          ih (l.drop 500) (by rw [List.length_drop]; omega)
        rw [hm] at hdrop
        rw [Nat.zero_mul, List.drop_zero, hdrop, List.take_append_drop]

theorem digitVal_digitCh : ∀ n < 10, digitVal (digitCh n) = n := by decide

theorem isDigitCh_digitCh : ∀ n < 10, isDigitCh (digitCh n) = true := by decide

theorem natDigitsAux_spec (fuel : Nat) : ∀ (n a : Nat), 0 < fuel → n < 10 ^ fuel →
    natDigitsAux fuel n ≠ []
    ∧ (natDigitsAux fuel n).all isDigitCh = true
    ∧ digitsFold a (natDigitsAux fuel n) = a * 10 ^ (natDigitsAux fuel n).length + n := by
  induction fuel with
  | zero => intro n a h _; omega
  | succ fuel ih =>
    intro n a _ hlt
    rw [natDigitsAux]
    by_cases h10 : n < 10
    · rw [if_pos h10]
      refine ⟨by simp, by simp [isDigitCh_digitCh n h10], ?_⟩
      simp [digitsFold, digitVal_digitCh n h10]
    · rw [if_neg h10]
      have hf : 0 < fuel := by
        rcases Nat.eq_zero_or_pos fuel with h0 | h0
        · subst h0; simp at hlt; omega
        · exact h0
      have hdiv : n / 10 < 10 ^ fuel := by
        have hmul : n < 10 ^ fuel * 10 := by
          rw [← pow_succ]; exact hlt
        exact Nat.div_lt_of_lt_mul (by rw [Nat.mul_comm]; exact hmul)
      obtain ⟨hne, hall, hfold⟩ := ih (n / 10) a hf hdiv
      have hmod : n % 10 < 10 := Nat.mod_lt n (by omega)
      refine ⟨by simp, ?_, ?_⟩
      · rw [List.all_append, hall]
        simp [isDigitCh_digitCh _ hmod]
      · simp only [digitsFold] at hfold ⊢
        rw [List.foldl_append, hfold]
        simp only [List.foldl_cons, List.foldl_nil]
        rw [digitVal_digitCh _ hmod, List.length_append, List.length_singleton, pow_succ]
        have hdm : n / 10 * 10 + n % 10 = n := by
          rw [Nat.mul_comm]
          exact Nat.div_add_mod n 10
        ring_nf
        omega

/-- Decimal printing and parsing round-trip: `toDatetime` inverts
`isoformat`. -/
theorem parseDigits_natDigits (t : Nat) : parseDigits (natDigits t) = some t := by
  have hb : t < 10 ^ (t + 1) := by
    calc t < 10 ^ t := Nat.lt_pow_self (by omega) t
      _ ≤ 10 ^ (t + 1) := Nat.pow_le_pow_right (by omega) (by omega)
  obtain ⟨hne, hall, hfold⟩ := natDigitsAux_spec (t + 1) t 0 (by omega) hb
  show parseDigits (natDigitsAux (t + 1) t) = some t
  rw [parseDigits, if_pos ⟨hne, hall⟩, hfold]
  simp

theorem toDatetime_isoformat (t : Nat) : toDatetime (.str (isoformat t)) = .time t := by
  rw [toDatetime, isoformat]
  have : parseDigits (String.mk (natDigits t)).data = some t := parseDigits_natDigits t
  rw [this]

/- ### Permutation lemmas for the chunk stream -/

theorem insertByDocId_perm (x : String × List Row) (l : List (String × List Row)) :
    List.Perm (insertByDocId x l) (x :: l) := by
  induction l with
  | nil => exact List.Perm.refl _
  | cons y t ih =>
    rw [insertByDocId]
    by_cases h : docIdLt y.1 x.1 = true
    · rw [if_pos h]
      exact (ih.cons y).trans (List.Perm.swap x y t)
    · rw [if_neg h]

theorem sortByDocId_perm (l : List (String × List Row)) :
    List.Perm (sortByDocId l) l := by
  induction l with
  | nil => exact List.Perm.refl _
  | cons x t ih => exact (insertByDocId_perm x (sortByDocId t)).trans (ih.cons x)

theorem flatten_perm {α : Type} {l₁ l₂ : List (List α)} (h : List.Perm l₁ l₂) :
    List.Perm l₁.flatten l₂.flatten := by
  induction h with
  | nil => exact List.Perm.refl _
  | cons x _ ih => simpa using ih.append_left x
  | swap x y l =>
    simp only [List.flatten_cons, ← List.append_assoc]
    exact List.perm_append_comm.append_right _
  | trans _ _ ih1 ih2 => exact ih1.trans ih2

/-- What one save writes, reassembled by the stream, is a permutation of
the serialized rows (the stream returns every chunk exactly once, merely
in document-id order). -/
theorem streamRecords_save_perm (df : DataFrame) (prev : AdminTableStore)
    (h : df.rows.isEmpty = false) :
    List.Perm (streamRecords (save_data_for_admin df prev)) (df.rows.map serializeRow) := by
  rw [save_data_for_admin, if_neg (by simp [h]), streamRecords]
  have hperm := sortByDocId_perm ((List.range (((df.rows.map serializeRow).length + MAX_ROWS_PER_CHUNK - 1) / MAX_ROWS_PER_CHUNK)).map
    (fun i => ("chunk_" ++ String.mk (natDigits i),
      ((df.rows.map serializeRow).drop (i * MAX_ROWS_PER_CHUNK)).take MAX_ROWS_PER_CHUNK)))
  refine (flatten_perm (hperm.map (fun p => p.2))).trans ?_
  rw [List.map_map]
  have harg : ((fun p => p.2) ∘ (fun i => (("chunk_" ++ String.mk (natDigits i) : String),
      ((df.rows.map serializeRow).drop (i * MAX_ROWS_PER_CHUNK)).take MAX_ROWS_PER_CHUNK)))
      = fun i => ((df.rows.map serializeRow).drop (i * 500)).take 500 := by
    funext i
    rfl
  rw [harg]
  have hC : MAX_ROWS_PER_CHUNK = 500 := rfl
  rw [hC]
  have harith : (df.rows.map serializeRow).length + 500 - 1
      = (df.rows.map serializeRow).length + 499 := by omega
  rw [harith, flatten_chunks]

/- ### Row and store lemmas -/

theorem serializeRow_keys (r : Row) : (serializeRow r).map Prod.fst = r.map Prod.fst := by
  simp [serializeRow]

theorem alGet_mem_keys {α : Type} (r : List (String × α)) (k : String) (v : α)
    (h : alGet r k = some v) : k ∈ r.map Prod.fst := by
  induction r with
  | nil => simp [alGet] at h
  | cons p t ih =>
    obtain ⟨k', v'⟩ := p
    by_cases h0 : k' = k
    · simp [h0]
    · rw [alGet, if_neg h0] at h
      simp [ih h]

theorem alGet_serializeRow (r : Row) (k : String) :
    alGet (serializeRow r) k = (alGet r k).map serializeCell := by
  induction r with
  | nil => rfl
  | cons p t ih =>
    obtain ⟨k', v'⟩ := p
    by_cases h0 : k' = k
    · simp [serializeRow, alGet, h0] at ih ⊢
    · simp [serializeRow, alGet, h0] at ih ⊢
      exact ih

theorem unionKeys_aux (t : List Row) (K acc : List String)
    (h : ∀ r ∈ t, r.map Prod.fst = K) (hacc : ∀ k ∈ K, acc.contains k = true) :
    t.foldl (fun acc r => acc ++ (r.map Prod.fst).filter (fun k => !acc.contains k)) acc
      = acc := by
  induction t with
  | nil => rfl
  | cons r t ih =>
    rw [List.foldl_cons, h r (by simp)]
    have hf : K.filter (fun k => !acc.contains k) = [] := by
      apply List.filter_eq_nil_iff.mpr
      intro k hk
      rw [hacc k hk]
      decide
    rw [hf, List.append_nil]
    exact ih (fun r' hr' => h r' (by simp [hr']))

theorem unionKeys_uniform (recs : List Row) (K : List String)
    (h : ∀ r ∈ recs, r.map Prod.fst = K) (hne : recs ≠ []) : unionKeys recs = K := by
  cases recs with
  | nil => exact absurd rfl hne
  | cons r t =>
    rw [unionKeys, List.foldl_cons, h r (by simp)]
    have hstep : ([] : List String) ++ K.filter (fun k => !([] : List String).contains k)
        = K := by simp
    rw [hstep]
    exact unionKeys_aux t K K (fun r' hr' => h r' (by simp [hr']))
      (fun k hk => by simpa [List.elem_iff] using hk)

theorem load_eq_build (st : AdminTableStore) :
    load_data_from_admin st = buildLoadedDF (rawRecords st) := by
  rw [load_data_from_admin, rawRecords]
  cases st.mainDoc with
  | none => rfl
  | some m =>
    cases hm : m.chunked with
    | true => simp [hm]
    | false =>
      simp only [hm, Bool.false_eq_true, if_false]
      cases m.legacyData with
      | none => rfl
      | some d => rfl

theorem rawRecords_chunked (st : AdminTableStore) (m : MainDoc)
    (h : st.mainDoc = some m) (hc : m.chunked = true) :
    rawRecords st = streamRecords st := by
  simp [rawRecords, h, hc]

theorem alGet_fixTanggalRow_ne (r : Row) (c : String) (h : c ≠ "Tanggal") :
    alGet (fixTanggalRow r) c = alGet r c :=
  alGet_alSet_ne r c "Tanggal" _ (fun he => h he.symm)

theorem alGet_fixTanggalRow_self (r : Row) :
    alGet (fixTanggalRow r) "Tanggal"
      = some (toDatetime ((alGet r "Tanggal").getD .null)) :=
  alGet_alSet_self r "Tanggal" _

/- ### Claims C8 and C10 -/

/-- Claim C8: saving an empty table deletes the previous chunks and the
manifest and writes nothing (whatever was stored before), and a subsequent
load returns the empty table rather than an error. -/
theorem C8_empty_table_tombstone (df : DataFrame) (prev : AdminTableStore)
    (h : df.rows = []) :
    save_data_for_admin df prev = ⟨none, []⟩
    ∧ (load_data_from_admin (save_data_for_admin df prev)).rows = []
    ∧ (load_data_from_admin (save_data_for_admin df prev)).cols = [] := by
  have hsave : save_data_for_admin df prev = ⟨none, []⟩ := by
    rw [save_data_for_admin, if_pos (by simp [h])]
  exact ⟨hsave, by rw [hsave]; rfl, by rw [hsave]; rfl⟩

theorem C8_empty_table_tombstone_witness :
    save_data_for_admin ⟨["A"], []⟩
        ⟨some ⟨true, 1, 1, none⟩, [("chunk_0", [[("A", Value.num 1)]])]⟩ = ⟨none, []⟩
    ∧ (load_data_from_admin (save_data_for_admin ⟨["A"], []⟩
        ⟨some ⟨true, 1, 1, none⟩, [("chunk_0", [[("A", Value.num 1)]])]⟩)).rows = []
    ∧ (load_data_from_admin (save_data_for_admin ⟨["A"], []⟩
        ⟨some ⟨true, 1, 1, none⟩, [("chunk_0", [[("A", Value.num 1)]])]⟩)).cols = [] :=
  C8_empty_table_tombstone ⟨["A"], []⟩
    ⟨some ⟨true, 1, 1, none⟩, [("chunk_0", [[("A", Value.num 1)]])]⟩ rfl

/-- Claim C10: on load, only the `Tanggal` column is converted back from
its serialized text; every other column's cells are exactly the stored
values (in particular serialized timestamps in other columns stay plain
strings), and when the `Tanggal` column is present each of its cells is
the `pd.to_datetime` coercion of the stored cell. -/
theorem C10_only_tanggal_reparsed (st : AdminTableStore) (c : String) (h : c ≠ "Tanggal") :
    (load_data_from_admin st).rows.map (fun r => alGet r c)
      = (rawRecords st).map (fun r => alGet r c)
    ∧ ((unionKeys (rawRecords st)).contains "Tanggal" = true →
        (load_data_from_admin st).rows.map (fun r => alGet r "Tanggal")
          = (rawRecords st).map (fun r =>
              some (toDatetime ((alGet r "Tanggal").getD .null)))) := by
  rw [load_eq_build, buildLoadedDF]
  by_cases he : (rawRecords st).isEmpty = true
  · have hnil : rawRecords st = [] := by simpa [List.isEmpty_iff] using he
    rw [if_pos he]
    simp [hnil]
  · rw [if_neg he]
    dsimp only
    by_cases ht : (unionKeys (rawRecords st)).contains "Tanggal" = true
    · rw [if_pos ht]
      constructor
      · rw [List.map_map]
        exact List.map_congr_left (fun r _ => alGet_fixTanggalRow_ne r c h)
      · intro _
        rw [List.map_map]
        exact List.map_congr_left (fun r _ => alGet_fixTanggalRow_self r)
    · rw [if_neg ht]
      exact ⟨rfl, fun hcontra => absurd hcontra ht⟩

theorem C10_only_tanggal_reparsed_witness :
    (load_data_from_admin ⟨some ⟨true, 1, 2, none⟩,
        [("chunk_0", [[("Tanggal", Value.str "5"), ("Amount", .str "7")]])]⟩).rows.map
      (fun r => alGet r "Amount")
      = (rawRecords ⟨some ⟨true, 1, 2, none⟩,
          [("chunk_0", [[("Tanggal", Value.str "5"), ("Amount", .str "7")]])]⟩).map
        (fun r => alGet r "Amount")
    ∧ ((unionKeys (rawRecords ⟨some ⟨true, 1, 2, none⟩,
          [("chunk_0", [[("Tanggal", Value.str "5"), ("Amount", .str "7")]])]⟩)).contains
        "Tanggal" = true →
        (load_data_from_admin ⟨some ⟨true, 1, 2, none⟩,
            [("chunk_0", [[("Tanggal", Value.str "5"), ("Amount", .str "7")]])]⟩).rows.map
          (fun r => alGet r "Tanggal")
          = (rawRecords ⟨some ⟨true, 1, 2, none⟩,
              [("chunk_0", [[("Tanggal", Value.str "5"), ("Amount", .str "7")]])]⟩).map
            (fun r => some (toDatetime ((alGet r "Tanggal").getD .null)))) :=
  C10_only_tanggal_reparsed ⟨some ⟨true, 1, 2, none⟩,
    [("chunk_0", [[("Tanggal", Value.str "5"), ("Amount", .str "7")]])]⟩ "Amount" (by decide)

/- ### Claim C2: chunk manifest and stream order -/

theorem bigTable_rows_eq :
    bigTable.rows = (List.range 5001).map (fun i => [("id", Value.str ⟨natDigits i⟩)]) := by
  simp only [bigTable, bigTableRows]

theorem bigTable_length : bigTable.rows.length = 5001 := by
  rw [bigTable_rows_eq, List.length_map, List.length_range]

theorem bigTable_ne : bigTable.rows ≠ [] := by
  intro h
  have hl := bigTable_length
  rw [h] at hl
  simp at hl

theorem bigTable_isEmpty : bigTable.rows.isEmpty = false := by
  rcases h : bigTable.rows.isEmpty with _ | _
  · rfl
  · exact absurd (by simpa [List.isEmpty_iff] using h) bigTable_ne

theorem bigTable_save_eq :
    save_data_for_admin bigTable ⟨none, []⟩
      = ⟨some ⟨true, 11, 5001, none⟩,
         (List.range 11).map (fun i =>
           ("chunk_" ++ (⟨natDigits i⟩ : String),
            ((bigTable.rows.map serializeRow).drop (i * 500)).take 500))⟩ := by
  rw [save_data_for_admin, if_neg (by simp [bigTable_isEmpty])]
  simp only [MAX_ROWS_PER_CHUNK, List.length_map, bigTable_length]

theorem bigTable_keys : ∀ r ∈ bigTable.rows, r.map Prod.fst = ["id"] := by
  intro r hr
  rw [bigTable_rows_eq] at hr
  obtain ⟨i, _, rfl⟩ := List.mem_map.mp hr
  rfl

/-- Firestore's `stream()` returns the eleven chunk documents in
document-id order: `chunk_10` sorts between `chunk_1` and `chunk_2`. -/
theorem sortByDocId_chunks11 (d : Nat → List Row) :
    sortByDocId ((List.range 11).map (fun i =>
        ("chunk_" ++ (⟨natDigits i⟩ : String), d i)))
      = [("chunk_0", d 0), ("chunk_1", d 1), ("chunk_10", d 10), ("chunk_2", d 2),
         ("chunk_3", d 3), ("chunk_4", d 4), ("chunk_5", d 5), ("chunk_6", d 6),
         ("chunk_7", d 7), ("chunk_8", d 8), ("chunk_9", d 9)] := by
  rfl

theorem bigTable_loaded_rows :
    (load_data_from_admin (save_data_for_admin bigTable ⟨none, []⟩)).rows
      = streamRecords (save_data_for_admin bigTable ⟨none, []⟩) := by
  have hperm := streamRecords_save_perm bigTable ⟨none, []⟩ bigTable_isEmpty
  have hne : streamRecords (save_data_for_admin bigTable ⟨none, []⟩) ≠ [] := by
    intro h0
    have hlen := hperm.length_eq
    rw [h0] at hlen
    have := hlen.symm
    simp [bigTable_length] at this
  have hkeys : ∀ r' ∈ streamRecords (save_data_for_admin bigTable ⟨none, []⟩),
      r'.map Prod.fst = ["id"] := by
    intro r' hr'
    obtain ⟨r0, hr0, rfl⟩ := List.mem_map.mp (hperm.mem_iff.mp hr')
    rw [serializeRow_keys]
    exact bigTable_keys r0 hr0
  have hU : unionKeys (streamRecords (save_data_for_admin bigTable ⟨none, []⟩)) = ["id"] :=
    unionKeys_uniform _ _ hkeys hne
  have hmain : (save_data_for_admin bigTable ⟨none, []⟩).mainDoc
      = some ⟨true, 11, 5001, none⟩ := by rw [bigTable_save_eq]
  rw [load_eq_build, rawRecords_chunked _ _ hmain rfl, buildLoadedDF,
    if_neg (by simpa [List.isEmpty_iff] using hne)]
  dsimp only
  rw [hU, if_neg (by decide)]

theorem bigTable_stream_get_1000 :
    (streamRecords (save_data_for_admin bigTable ⟨none, []⟩))[1000]?
      = some [("id", Value.str "5000")] := by
  rw [streamRecords, bigTable_save_eq]
  dsimp only
  rw [sortByDocId_chunks11 (fun i => ((bigTable.rows.map serializeRow).drop (i * 500)).take 500)]
  simp only [List.map_cons, List.map_nil, List.flatten_cons, List.flatten_nil]
  have hreclen : (bigTable.rows.map serializeRow).length = 5001 := by
    rw [List.length_map, bigTable_length]
  have hlen : ∀ i : Nat,
      (((bigTable.rows.map serializeRow).drop (i * 500)).take 500).length
        = min 500 (5001 - i * 500) := by
    intro i
    rw [List.length_take, List.length_drop, hreclen]
  rw [List.getElem?_append_right (by rw [hlen 0]; omega)]
  rw [hlen 0]
  have h1 : 1000 - min 500 (5001 - 0 * 500) = 500 := by omega
  rw [h1]
  rw [List.getElem?_append_right (by rw [hlen 1]; omega)]
  rw [hlen 1]
  have h2 : 500 - min 500 (5001 - 1 * 500) = 0 := by omega
  rw [h2]
  rw [List.getElem?_append, if_pos (by rw [hlen 10]; omega)]
  rw [List.getElem?_take, if_pos (by omega), List.getElem?_drop]
  have h3 : (10 : Nat) * 500 + 0 = 5000 := by omega
  rw [h3]
  rw [List.getElem?_map]
  rw [bigTable_rows_eq, List.getElem?_map, List.getElem?_range (by omega)]
  decide

theorem bigTable_rows_get_1000 :
    bigTable.rows[1000]? = some [("id", Value.str "1000")] := by
  rw [bigTable_rows_eq, List.getElem?_map, List.getElem?_range (by omega)]
  decide

theorem bigTable_serialized_get_1000 :
    (bigTable.rows.map serializeRow)[1000]? = some [("id", Value.str "1000")] := by
  rw [List.getElem?_map, bigTable_rows_get_1000]
  decide

/-- Claim C2 (code bug): the manifest invariant holds on every save
(`num_chunks` is the ceiling division, `num_records` the row count, chunks
are the consecutive 500-row slices whose in-order concatenation restores
the table), but load streams the chunk documents in *document-id* order,
which differs from numeric index order once `num_chunks` exceeds ten: for
the 5001-row table the loaded sequence places original row 5000 (the sole
row of `chunk_10`) at position 1000, so the reassembled rows differ from
the saved rows. -/
theorem C2_chunk_stream_order (df : DataFrame) (prev : AdminTableStore)
    (h : df.rows ≠ []) :
    (save_data_for_admin df prev).mainDoc
      = some ⟨true, (df.rows.length + 499) / 500, df.rows.length, none⟩
    ∧ (∀ recs : List Row,
        ((List.range ((recs.length + 499) / 500)).map
          (fun i => (recs.drop (i * 500)).take 500)).flatten = recs)
    ∧ (load_data_from_admin (save_data_for_admin bigTable ⟨none, []⟩)).rows[1000]?
        = some [("id", Value.str "5000")]
    ∧ bigTable.rows[1000]? = some [("id", Value.str "1000")]
    ∧ (load_data_from_admin (save_data_for_admin bigTable ⟨none, []⟩)).rows
        ≠ bigTable.rows.map serializeRow := by
  refine ⟨?_, fun recs => flatten_chunks recs, ?_, bigTable_rows_get_1000, ?_⟩
  · rw [save_data_for_admin, if_neg (by simp [h])]
    simp only [MAX_ROWS_PER_CHUNK, List.length_map]
    have harith : df.rows.length + 500 - 1 = df.rows.length + 499 := by omega
    rw [harith]
  · rw [bigTable_loaded_rows]
    exact bigTable_stream_get_1000
  · intro h0
    have hidx := congrArg (fun l => l[1000]?) h0
    rw [bigTable_loaded_rows] at hidx
    simp only at hidx
    rw [bigTable_stream_get_1000, bigTable_serialized_get_1000] at hidx
    exact absurd hidx (by decide)

theorem C2_chunk_stream_order_witness :
    (save_data_for_admin bigTable ⟨none, []⟩).mainDoc
      = some ⟨true, (bigTable.rows.length + 499) / 500, bigTable.rows.length, none⟩
    ∧ (∀ recs : List Row,
        ((List.range ((recs.length + 499) / 500)).map
          (fun i => (recs.drop (i * 500)).take 500)).flatten = recs)
    ∧ (load_data_from_admin (save_data_for_admin bigTable ⟨none, []⟩)).rows[1000]?
        = some [("id", Value.str "5000")]
    ∧ bigTable.rows[1000]? = some [("id", Value.str "1000")]
    ∧ (load_data_from_admin (save_data_for_admin bigTable ⟨none, []⟩)).rows
        ≠ bigTable.rows.map serializeRow :=
  C2_chunk_stream_order bigTable ⟨none, []⟩ bigTable_ne

/- ### Claim C4: save/load round trip -/

/-- Claim C4 (counterexample): a non-timestamp string stored in the
`Tanggal` column is not returned unchanged by the round trip — load
coerces it with `pd.to_datetime(errors='coerce')`, so `"abc"` comes back
as `NaT` (`null`), although the claim promises all non-timestamp cell
values unchanged (up to row order). -/
theorem C4_tanggal_text_counterexample :
    (load_data_from_admin (save_data_for_admin ⟨["Tanggal"], [[("Tanggal", .str "abc")]]⟩
        ⟨none, []⟩)).rows = [[("Tanggal", Value.null)]]
    ∧ Value.null ≠ Value.str "abc"
    ∧ (match Value.str "abc" with | .time _ => true | _ => false) = false := by decide

/-- Claim C4 as amended: for tables whose `Tanggal` cells (when present)
are timestamp values, `load ∘ save` returns the rows up to row order;
`Tanggal` timestamps compare equal to the originals after the re-parse,
timestamps in other columns come back as their ISO text (which re-parses
to the original instant), and all non-timestamp cells outside `Tanggal`
are returned unchanged.  Non-timestamp text in the `Tanggal` column is
instead coerced (unparseable text becomes `NaT`), which is the one
deviation from the claim as stated. -/
theorem C4_roundtrip_amended (T : DataFrame) (prev : AdminTableStore)
    (hwf : ∀ r ∈ T.rows, r.map Prod.fst = T.cols)
    (htang : ∀ r ∈ T.rows, isTimeOpt (alGet r "Tanggal") = true) :
    List.Perm (load_data_from_admin (save_data_for_admin T prev)).rows
      (T.rows.map (roundtripRow T.cols))
    ∧ (∀ r ∈ T.rows,
        (roundtripRow T.cols r).map Prod.fst = r.map Prod.fst
        ∧ (∀ v, alGet r "Tanggal" = some v →
            alGet (roundtripRow T.cols r) "Tanggal" = some v)
        ∧ (∀ k v, alGet r k = some v → k ≠ "Tanggal" →
            (∃ t, v = .time t
              ∧ alGet (roundtripRow T.cols r) k = some (.str (isoformat t))
              ∧ toDatetime (.str (isoformat t)) = v)
            ∨ ((∀ t : Nat, v ≠ .time t) ∧ alGet (roundtripRow T.cols r) k = some v))) := by
  constructor
  · cases hE : T.rows.isEmpty with
    | true =>
      have hnil : T.rows = [] := by simpa [List.isEmpty_iff] using hE
      rw [save_data_for_admin, if_pos hE, hnil]
      exact List.Perm.refl _
    | false =>
      have hperm := streamRecords_save_perm T prev hE
      have hmain : (save_data_for_admin T prev).mainDoc
          = some ⟨true, ((T.rows.map serializeRow).length + MAX_ROWS_PER_CHUNK - 1)
              / MAX_ROWS_PER_CHUNK, (T.rows.map serializeRow).length, none⟩ := by
        rw [save_data_for_admin, if_neg (by simp [hE])]
      have hload := load_eq_build (save_data_for_admin T prev)
      rw [rawRecords_chunked _ _ hmain rfl] at hload
      have hne : streamRecords (save_data_for_admin T prev) ≠ [] := by
        intro h0
        have hlen := hperm.length_eq
        rw [h0] at hlen
        have hnil : T.rows = [] := by
          have := hlen.symm
          simpa using this
        rw [hnil] at hE
        simp at hE
      have hkeys : ∀ r' ∈ streamRecords (save_data_for_admin T prev),
          r'.map Prod.fst = T.cols := by
        intro r' hr'
        have hmem : r' ∈ T.rows.map serializeRow := hperm.mem_iff.mp hr'
        obtain ⟨r0, hr0, rfl⟩ := List.mem_map.mp hmem
        rw [serializeRow_keys]
        exact hwf r0 hr0
      have hcolsU : unionKeys (streamRecords (save_data_for_admin T prev)) = T.cols :=
        unionKeys_uniform _ _ hkeys hne
      rw [hload, buildLoadedDF, if_neg (by simpa [List.isEmpty_iff] using hne)]
      dsimp only
      rw [hcolsU]
      by_cases ht : T.cols.contains "Tanggal" = true
      · rw [if_pos ht]
        refine (hperm.map fixTanggalRow).trans ?_
        rw [List.map_map]
        apply List.Perm.of_eq
        apply List.map_congr_left
        intro r _
        have htm : "Tanggal" ∈ T.cols := by simpa [List.elem_iff] using ht
        simp [roundtripRow, htm, Function.comp]
      · rw [if_neg ht]
        refine hperm.trans ?_
        apply List.Perm.of_eq
        apply List.map_congr_left
        intro r _
        have htm : "Tanggal" ∉ T.cols := by simpa [List.elem_iff] using ht
        simp [roundtripRow, htm]
  · intro r hr
    have hkeysr : r.map Prod.fst = T.cols := hwf r hr
    refine ⟨?_, ?_, ?_⟩
    · rw [roundtripRow]
      by_cases ht : T.cols.contains "Tanggal" = true
      · rw [if_pos ht, fixTanggalRow]
        rw [alSet_keys_of_mem _ _ _ (by
          rw [serializeRow_keys, hkeysr]
          simpa [List.elem_iff] using ht)]
        rw [serializeRow_keys]
      · rw [if_neg ht, serializeRow_keys]
    · intro v hv
      have htr := htang r hr
      rw [hv] at htr
      obtain ⟨t, rfl⟩ : ∃ t, v = Value.time t := by
        cases v
        case time t => exact ⟨t, rfl⟩
        all_goals simp [isTimeOpt] at htr
      have hmem : "Tanggal" ∈ T.cols := hkeysr ▸ alGet_mem_keys r _ _ hv
      have ht : T.cols.contains "Tanggal" = true := by
        simpa [List.elem_iff] using hmem
      rw [roundtripRow, if_pos ht, alGet_fixTanggalRow_self, alGet_serializeRow, hv]
      simp [serializeCell, toDatetime_isoformat]
    · intro k v hkv hkne
      have hget : alGet (roundtripRow T.cols r) k = some (serializeCell v) := by
        rw [roundtripRow]
        by_cases ht : T.cols.contains "Tanggal" = true
        · rw [if_pos ht, alGet_fixTanggalRow_ne _ _ hkne, alGet_serializeRow, hkv]
          rfl
        · rw [if_neg ht, alGet_serializeRow, hkv]
          rfl
      cases v with
      | time t =>
        exact Or.inl ⟨t, rfl, by rw [hget]; rfl, toDatetime_isoformat t⟩
      | str s => exact Or.inr ⟨fun t => by simp, by rw [hget]; rfl⟩
      | num q => exact Or.inr ⟨fun t => by simp, by rw [hget]; rfl⟩
      | bool b => exact Or.inr ⟨fun t => by simp, by rw [hget]; rfl⟩
      | null => exact Or.inr ⟨fun t => by simp, by rw [hget]; rfl⟩

theorem C4_roundtrip_amended_witness :
    List.Perm (load_data_from_admin (save_data_for_admin
        ⟨["Tanggal", "Amount"], [[("Tanggal", .time 5), ("Amount", .time 7)]]⟩
        ⟨none, []⟩)).rows
      ([[(("Tanggal" : String), Value.time 5), (("Amount" : String), Value.time 7)]].map
        (roundtripRow ["Tanggal", "Amount"]))
    ∧ (∀ r ∈ [[(("Tanggal" : String), Value.time 5), (("Amount" : String), Value.time 7)]],
        (roundtripRow ["Tanggal", "Amount"] r).map Prod.fst = r.map Prod.fst
        ∧ (∀ v, alGet r "Tanggal" = some v →
            alGet (roundtripRow ["Tanggal", "Amount"] r) "Tanggal" = some v)
        ∧ (∀ k v, alGet r k = some v → k ≠ "Tanggal" →
            (∃ t, v = .time t
              ∧ alGet (roundtripRow ["Tanggal", "Amount"] r) k = some (.str (isoformat t))
              ∧ toDatetime (.str (isoformat t)) = v)
            ∨ ((∀ t : Nat, v ≠ .time t)
              ∧ alGet (roundtripRow ["Tanggal", "Amount"] r) k = some v))) :=
  C4_roundtrip_amended
    ⟨["Tanggal", "Amount"], [[("Tanggal", .time 5), ("Amount", .time 7)]]⟩
    ⟨none, []⟩ (by decide) (by decide)

theorem foldl_initEnrichCell (cs : List String) (cols : List String) (r : Row)
    (h2 : ∀ c ∈ cs, cols.contains c = false)
    (h3 : ∀ c ∈ cs, alGet r c = none)
    (hd : cs.Nodup) :
    cs.foldl (initEnrichCell cols) r
      = r ++ cs.map (fun c => (c, Value.str (sentinelFor c))) := by
  induction cs generalizing r with
  | nil => simp
  | cons c cs ih =>
    have hstep : initEnrichCell cols r c = r ++ [(c, Value.str (sentinelFor c))] := by
      simp only [initEnrichCell, h2 c (by simp)]
      simp [alSet_of_none r c _ (h3 c (by simp))]
    have h3' : ∀ c' ∈ cs, alGet (r ++ [(c, Value.str (sentinelFor c))]) c' = none := by
      intro c' hc'
      rw [alGet_append]
      rw [h3 c' (by simp [hc'])]
      have : c ≠ c' := by
        intro he
        exact (List.nodup_cons.mp hd).1 (he ▸ hc')
      simp [alGet, this]
    have h2' : ∀ c' ∈ cs, cols.contains c' = false := fun c' hc' => h2 c' (by simp [hc'])
    calc (c :: cs).foldl (initEnrichCell cols) r
        = cs.foldl (initEnrichCell cols) (r ++ [(c, Value.str (sentinelFor c))]) := by
          rw [List.foldl_cons, hstep]
      _ = r ++ (c :: cs).map (fun c => (c, Value.str (sentinelFor c))) := by
          rw [ih _ h2' h3' (List.nodup_cons.mp hd).2]
          simp

/-- The sentinel cells appended by the default-column loop, evaluated. -/
theorem initEnrichRow_fresh (cols : List String) (r : Row)
    (h2 : ∀ c ∈ enrichColNames, cols.contains c = false)
    (h3 : ∀ c ∈ enrichColNames, alGet r c = none) :
    initEnrichRow cols r
      = r ++ [("Category", .str "Unknown Category"),
              ("Sub Category", .str "Unknown SubCategory"),
              ("Tahun Produksi", .str "Unknown TahunProduksi"),
              ("Season", .str "Unknown Season"),
              ("Singkatan Nama Produk", .str "Unknown SingkatanNamaProduk"),
              ("Warna Produk", .str "Unknown WarnaProduk"),
              ("Size Produk", .str "Unknown SizeProduk"),
              ("Is Deffect", .str "Unknown IsDeffect")] := by
  rw [initEnrichRow, foldl_initEnrichCell enrichColNames cols r h2 h3 (by decide)]
  have hmap : enrichColNames.map (fun c => (c, Value.str (sentinelFor c)))
      = [("Category", .str "Unknown Category"),
         ("Sub Category", .str "Unknown SubCategory"),
         ("Tahun Produksi", .str "Unknown TahunProduksi"),
         ("Season", .str "Unknown Season"),
         ("Singkatan Nama Produk", .str "Unknown SingkatanNamaProduk"),
         ("Warna Produk", .str "Unknown WarnaProduk"),
         ("Size Produk", .str "Unknown SizeProduk"),
         ("Is Deffect", .str "Unknown IsDeffect")] := by decide
  rw [hmap]

/-- Row-level enrichment when the suffix regex does not match: size,
category and sub-category are still resolved by slicing, while the four
regex-derived fields keep their sentinel defaults and the defect flag is
`false`.  The bucket hypotheses say the decoder has no entry for the empty
code (decoders built by `load_sku_master` never do). -/
theorem enrichRow_pattern_fail_upper (dec : SkuDecoder) (cols : List String) (r : Row)
    (u : String)
    (hsku : pyUpper (pyStr ((alGet r "SKU").getD .null)) = u)
    (hre : regexExtract u = none)
    (h2 : ∀ c ∈ enrichColNames, cols.contains c = false)
    (h3 : ∀ c ∈ enrichColNames, alGet r c = none)
    (hT : alGet dec.tahun_produksi "" = none)
    (hS : alGet dec.season "" = none)
    (hP : alGet dec.singkatan_nama_produk "" = none)
    (hW : alGet dec.warna "" = none) :
    alGet (enrichRow dec cols r) "Size Produk"
      = some (.str ((alGet dec.ukuran (strTakeRight u 2)).getD "Unknown Ukuran"))
    ∧ alGet (enrichRow dec cols r) "Category"
      = some (.str ((alGet dec.category (strTake u 3)).getD "Unknown Category"))
    ∧ alGet (enrichRow dec cols r) "Sub Category"
      = some (.str ((alGet dec.sub_category (strTake u 4)).getD "Unknown Sub Category"))
    ∧ alGet (enrichRow dec cols r) "Tahun Produksi" = some (.str "Unknown TahunProduksi")
    ∧ alGet (enrichRow dec cols r) "Season" = some (.str "Unknown Season")
    ∧ alGet (enrichRow dec cols r) "Singkatan Nama Produk"
      = some (.str "Unknown SingkatanNamaProduk")
    ∧ alGet (enrichRow dec cols r) "Warna Produk" = some (.str "Unknown WarnaProduk")
    ∧ alGet (enrichRow dec cols r) "Is Deffect" = some (.bool false) := by
  have hinit := initEnrichRow_fresh cols r h2 h3
  have h3T := h3 "Tahun Produksi" (by decide)
  have h3S := h3 "Season" (by decide)
  have h3P := h3 "Singkatan Nama Produk" (by decide)
  have h3W := h3 "Warna Produk" (by decide)
  simp only [enrichRow, hsku, hre, Option.getD_none, hinit, hT, hS, hP, hW]
  simp [alGet_alSet_self, alGet_alSet_ne, alGet_append, h3T, h3S, h3P, h3W, alGet,
    startsWithCh]

theorem enrichRow_pattern_fail (dec : SkuDecoder) (cols : List String) (r : Row) (sku : String)
    (hsku : alGet r "SKU" = some (.str sku))
    (hre : regexExtract (pyUpper sku) = none)
    (h2 : ∀ c ∈ enrichColNames, cols.contains c = false)
    (h3 : ∀ c ∈ enrichColNames, alGet r c = none)
    (hT : alGet dec.tahun_produksi "" = none)
    (hS : alGet dec.season "" = none)
    (hP : alGet dec.singkatan_nama_produk "" = none)
    (hW : alGet dec.warna "" = none) :
    alGet (enrichRow dec cols r) "Size Produk"
      = some (.str ((alGet dec.ukuran (strTakeRight (pyUpper sku) 2)).getD "Unknown Ukuran"))
    ∧ alGet (enrichRow dec cols r) "Category"
      = some (.str ((alGet dec.category (strTake (pyUpper sku) 3)).getD "Unknown Category"))
    ∧ alGet (enrichRow dec cols r) "Sub Category"
      = some (.str ((alGet dec.sub_category (strTake (pyUpper sku) 4)).getD "Unknown Sub Category"))
    ∧ alGet (enrichRow dec cols r) "Tahun Produksi" = some (.str "Unknown TahunProduksi")
    ∧ alGet (enrichRow dec cols r) "Season" = some (.str "Unknown Season")
    ∧ alGet (enrichRow dec cols r) "Singkatan Nama Produk"
      = some (.str "Unknown SingkatanNamaProduk")
    ∧ alGet (enrichRow dec cols r) "Warna Produk" = some (.str "Unknown WarnaProduk")
    ∧ alGet (enrichRow dec cols r) "Is Deffect" = some (.bool false) :=
  enrichRow_pattern_fail_upper dec cols r (pyUpper sku) (by rw [hsku]; rfl) hre h2 h3 hT hS
    hP hW

/-- Enrichment never drops a row: both branches map over the rows. -/
theorem enrich_preserves_row_count (df : DataFrame) (dec : SkuDecoder) :
    (enrich_dataframe_with_sku_info df dec).rows.length = df.rows.length := by
  rw [enrich_dataframe_with_sku_info]
  split <;> simp

/- ### Claims C1 and C3 -/

/-- Claim C1 (code bug): for the defect SKU `ZOZD1BAS-MIA-TBW35` (segment
`D1`), enrichment does set `Is Deffect = true`, but the production year is
looked up in the `TAHUN PRODUKSI` bucket (never the `DEFFECT` bucket,
whose mapping `deffect_map` is built and then never used), and the
`2020 + digit` fallback compares against the sentinel `"Unknown Tahun"`
while the column actually holds `"Unknown TahunProduksi"`, so it never
fires: the year stays `"Unknown TahunProduksi"` instead of the documented
`"2021"`, even when the DEFFECT bucket has an entry for `D1`. -/
theorem C1_defect_year_fallback_dead :
    alGet (enrichRow SkuDecoder.empty ["SKU"] [("SKU", .str "ZOZD1BAS-MIA-TBW35")])
      "Is Deffect" = some (.bool true)
    ∧ alGet (enrichRow SkuDecoder.empty ["SKU"] [("SKU", .str "ZOZD1BAS-MIA-TBW35")])
      "Tahun Produksi" = some (.str "Unknown TahunProduksi")
    ∧ alGet (enrichRow { SkuDecoder.empty with deffect := [("D1", "2021")] } ["SKU"]
        [("SKU", .str "ZOZD1BAS-MIA-TBW35")])
      "Tahun Produksi" = some (.str "Unknown TahunProduksi")
    ∧ (Value.str "Unknown TahunProduksi") ≠ (Value.str "2021") := by decide

/-- Claim C3 (counterexample): on a table lacking the `SKU` column the
default-column branch stores the *string* `"Unknown IsDeffect"` in
`Is Deffect`, not the boolean `false` the claim asserts. -/
theorem C3_missing_sku_counterexample :
    (enrich_dataframe_with_sku_info ⟨["X"], [[("X", .num 1)]]⟩ SkuDecoder.empty).rows.map
      (fun r => alGet r "Is Deffect") = [some (.str "Unknown IsDeffect")]
    ∧ (Value.str "Unknown IsDeffect") ≠ (Value.bool false) := by decide

/-- Claim C3 as amended: in a table that carries the `SKU` column, a row
whose SKU is the empty string — and likewise a row with no SKU field (a
NaN cell, which `astype(str)` turns into `'nan'` and upper-casing into
`'NAN'`, so every lookup misses) — gets every enrichment field set to its
"Unknown …" sentinel and `Is Deffect = false`; a table lacking the `SKU`
column gets all eight enrichment columns — `Is Deffect` included — set to
the *string* sentinels `"Unknown <Field>"`, so there `Is Deffect` holds
`"Unknown IsDeffect"` rather than the boolean `false`.  Rows are retained
in every case.  (`r` is the empty-string-SKU row, `r2` the row with a
missing/NaN SKU cell; the bucket hypotheses say the decoder has no entry
for the codes those degenerate SKUs slice to, which `load_sku_master`
cannot produce from genuine code rows.) -/
theorem C3_empty_sku_sentinels (df : DataFrame) (dec : SkuDecoder) (cols : List String)
    (r r2 : Row)
    (hnoSKU : df.cols.contains "SKU" = false)
    (h2df : ∀ c ∈ enrichColNames, df.cols.contains c = false)
    (h3df : ∀ r' ∈ df.rows, ∀ c ∈ enrichColNames, alGet r' c = none)
    (hsku : alGet r "SKU" = some (.str ""))
    (h2c : ∀ c ∈ enrichColNames, cols.contains c = false)
    (h3 : ∀ c ∈ enrichColNames, alGet r c = none)
    (hsku2 : alGet r2 "SKU" = some Value.null ∨ alGet r2 "SKU" = none)
    (h32 : ∀ c ∈ enrichColNames, alGet r2 c = none)
    (hU : alGet dec.ukuran "" = none)
    (hC : alGet dec.category "" = none)
    (hB : alGet dec.sub_category "" = none)
    (hT : alGet dec.tahun_produksi "" = none)
    (hS : alGet dec.season "" = none)
    (hP : alGet dec.singkatan_nama_produk "" = none)
    (hW : alGet dec.warna "" = none)
    (hAN : alGet dec.ukuran "AN" = none)
    (hNAN3 : alGet dec.category "NAN" = none)
    (hNAN4 : alGet dec.sub_category "NAN" = none) :
    (enrich_dataframe_with_sku_info df dec).rows
      = df.rows.map (fun r' => r' ++
          [("Category", .str "Unknown Category"),
           ("Sub Category", .str "Unknown SubCategory"),
           ("Tahun Produksi", .str "Unknown TahunProduksi"),
           ("Season", .str "Unknown Season"),
           ("Singkatan Nama Produk", .str "Unknown SingkatanNamaProduk"),
           ("Warna Produk", .str "Unknown WarnaProduk"),
           ("Size Produk", .str "Unknown SizeProduk"),
           ("Is Deffect", .str "Unknown IsDeffect")])
    ∧ (enrich_dataframe_with_sku_info df dec).rows.length = df.rows.length
    ∧ alGet (enrichRow dec cols r) "Size Produk" = some (.str "Unknown Ukuran")
    ∧ alGet (enrichRow dec cols r) "Category" = some (.str "Unknown Category")
    ∧ alGet (enrichRow dec cols r) "Sub Category" = some (.str "Unknown Sub Category")
    ∧ alGet (enrichRow dec cols r) "Tahun Produksi" = some (.str "Unknown TahunProduksi")
    ∧ alGet (enrichRow dec cols r) "Season" = some (.str "Unknown Season")
    ∧ alGet (enrichRow dec cols r) "Singkatan Nama Produk"
      = some (.str "Unknown SingkatanNamaProduk")
    ∧ alGet (enrichRow dec cols r) "Warna Produk" = some (.str "Unknown WarnaProduk")
    ∧ alGet (enrichRow dec cols r) "Is Deffect" = some (.bool false)
    ∧ alGet (enrichRow dec cols r2) "Size Produk" = some (.str "Unknown Ukuran")
    ∧ alGet (enrichRow dec cols r2) "Category" = some (.str "Unknown Category")
    ∧ alGet (enrichRow dec cols r2) "Sub Category" = some (.str "Unknown Sub Category")
    ∧ alGet (enrichRow dec cols r2) "Tahun Produksi" = some (.str "Unknown TahunProduksi")
    ∧ alGet (enrichRow dec cols r2) "Season" = some (.str "Unknown Season")
    ∧ alGet (enrichRow dec cols r2) "Singkatan Nama Produk"
      = some (.str "Unknown SingkatanNamaProduk")
    ∧ alGet (enrichRow dec cols r2) "Warna Produk" = some (.str "Unknown WarnaProduk")
    ∧ alGet (enrichRow dec cols r2) "Is Deffect" = some (.bool false) := by
  have hrow := enrichRow_pattern_fail dec cols r "" hsku (by decide) h2c h3 hT hS hP hW
  have hu2 : pyUpper (pyStr ((alGet r2 "SKU").getD .null)) = "NAN" := by
    rcases hsku2 with h | h
    · rw [h]
      decide
    · rw [h]
      decide
  have hrow2 := enrichRow_pattern_fail_upper dec cols r2 "NAN" hu2 (by decide) h2c h32
    hT hS hP hW
  have htab : (enrich_dataframe_with_sku_info df dec).rows
      = df.rows.map (initEnrichRow df.cols) := by
    have hmem : "SKU" ∉ df.cols := by simpa using hnoSKU
    simp [enrich_dataframe_with_sku_info, hmem]
  refine ⟨?_, ?_, ?_, ?_, ?_, hrow.2.2.2.1, hrow.2.2.2.2.1, hrow.2.2.2.2.2.1,
    hrow.2.2.2.2.2.2.1, hrow.2.2.2.2.2.2.2, ?_, ?_, ?_, hrow2.2.2.2.1, hrow2.2.2.2.2.1,
    hrow2.2.2.2.2.2.1, hrow2.2.2.2.2.2.2.1, hrow2.2.2.2.2.2.2.2⟩
  · rw [htab]
    exact List.map_congr_left (fun r' hr' => initEnrichRow_fresh df.cols r' (h2df) (h3df r' hr'))
  · exact enrich_preserves_row_count df dec
  · have := hrow.1
    rwa [show strTakeRight (pyUpper "") 2 = "" from rfl, hU] at this
  · have := hrow.2.1
    rwa [show strTake (pyUpper "") 3 = "" from rfl, hC] at this
  · have := hrow.2.2.1
    rwa [show strTake (pyUpper "") 4 = "" from rfl, hB] at this
  · have := hrow2.1
    rwa [show strTakeRight "NAN" 2 = "AN" from rfl, hAN] at this
  · have := hrow2.2.1
    rwa [show strTake "NAN" 3 = "NAN" from rfl, hNAN3] at this
  · have := hrow2.2.2.1
    rwa [show strTake "NAN" 4 = "NAN" from rfl, hNAN4] at this

theorem C3_empty_sku_sentinels_witness :
    (enrich_dataframe_with_sku_info ⟨["X"], [[("X", .num 1)]]⟩ SkuDecoder.empty).rows
      = [[("X", .num 1)]].map (fun r' => r' ++
          [("Category", .str "Unknown Category"),
           ("Sub Category", .str "Unknown SubCategory"),
           ("Tahun Produksi", .str "Unknown TahunProduksi"),
           ("Season", .str "Unknown Season"),
           ("Singkatan Nama Produk", .str "Unknown SingkatanNamaProduk"),
           ("Warna Produk", .str "Unknown WarnaProduk"),
           ("Size Produk", .str "Unknown SizeProduk"),
           ("Is Deffect", .str "Unknown IsDeffect")])
    ∧ (enrich_dataframe_with_sku_info ⟨["X"], [[("X", .num 1)]]⟩ SkuDecoder.empty).rows.length
      = [[(("X" : String), Value.num 1)]].length
    ∧ alGet (enrichRow SkuDecoder.empty ["SKU"] [("SKU", .str "")]) "Size Produk"
      = some (.str "Unknown Ukuran")
    ∧ alGet (enrichRow SkuDecoder.empty ["SKU"] [("SKU", .str "")]) "Category"
      = some (.str "Unknown Category")
    ∧ alGet (enrichRow SkuDecoder.empty ["SKU"] [("SKU", .str "")]) "Sub Category"
      = some (.str "Unknown Sub Category")
    ∧ alGet (enrichRow SkuDecoder.empty ["SKU"] [("SKU", .str "")]) "Tahun Produksi"
      = some (.str "Unknown TahunProduksi")
    ∧ alGet (enrichRow SkuDecoder.empty ["SKU"] [("SKU", .str "")]) "Season"
      = some (.str "Unknown Season")
    ∧ alGet (enrichRow SkuDecoder.empty ["SKU"] [("SKU", .str "")]) "Singkatan Nama Produk"
      = some (.str "Unknown SingkatanNamaProduk")
    ∧ alGet (enrichRow SkuDecoder.empty ["SKU"] [("SKU", .str "")]) "Warna Produk"
      = some (.str "Unknown WarnaProduk")
    ∧ alGet (enrichRow SkuDecoder.empty ["SKU"] [("SKU", .str "")]) "Is Deffect"
      = some (.bool false)
    ∧ alGet (enrichRow SkuDecoder.empty ["SKU"] [("SKU", Value.null)]) "Size Produk"
      = some (.str "Unknown Ukuran")
    ∧ alGet (enrichRow SkuDecoder.empty ["SKU"] [("SKU", Value.null)]) "Category"
      = some (.str "Unknown Category")
    ∧ alGet (enrichRow SkuDecoder.empty ["SKU"] [("SKU", Value.null)]) "Sub Category"
      = some (.str "Unknown Sub Category")
    ∧ alGet (enrichRow SkuDecoder.empty ["SKU"] [("SKU", Value.null)]) "Tahun Produksi"
      = some (.str "Unknown TahunProduksi")
    ∧ alGet (enrichRow SkuDecoder.empty ["SKU"] [("SKU", Value.null)]) "Season"
      = some (.str "Unknown Season")
    ∧ alGet (enrichRow SkuDecoder.empty ["SKU"] [("SKU", Value.null)]) "Singkatan Nama Produk"
      = some (.str "Unknown SingkatanNamaProduk")
    ∧ alGet (enrichRow SkuDecoder.empty ["SKU"] [("SKU", Value.null)]) "Warna Produk"
      = some (.str "Unknown WarnaProduk")
    ∧ alGet (enrichRow SkuDecoder.empty ["SKU"] [("SKU", Value.null)]) "Is Deffect"
      = some (.bool false) :=
  C3_empty_sku_sentinels ⟨["X"], [[("X", .num 1)]]⟩ SkuDecoder.empty ["SKU"]
    [("SKU", .str "")] [("SKU", Value.null)] (by decide) (by decide) (by decide) (by decide)
    (by decide) (by decide) (by decide) (by decide) (by decide) (by decide) (by decide)
    (by decide) (by decide) (by decide) (by decide) (by decide) (by decide) (by decide)

/-- Claim C6: the prefix/suffix slicing lookups and the structured regex
parse are independent.  For any row whose (upper-cased) SKU fails the full
suffix pattern, size, category and sub-category are still resolved by
slicing through the decoder, while season, product abbreviation, color and
production year keep their "Unknown …" defaults; and the enrichment
function never drops a row (its total definition in this model also means
it never raises). -/
theorem C6_slicing_regex_independent (df : DataFrame) (dec : SkuDecoder) (r : Row) (sku : String)
    (hcols : df.cols.contains "SKU" = true)
    (hne : df.rows.isEmpty = false)
    (hsku : alGet r "SKU" = some (.str sku))
    (hre : regexExtract (pyUpper sku) = none)
    (h2 : ∀ c ∈ enrichColNames, df.cols.contains c = false)
    (h3 : ∀ c ∈ enrichColNames, alGet r c = none)
    (hT : alGet dec.tahun_produksi "" = none)
    (hS : alGet dec.season "" = none)
    (hP : alGet dec.singkatan_nama_produk "" = none)
    (hW : alGet dec.warna "" = none) :
    (enrich_dataframe_with_sku_info df dec).rows = df.rows.map (enrichRow dec df.cols)
    ∧ alGet (enrichRow dec df.cols r) "Size Produk"
      = some (.str ((alGet dec.ukuran (strTakeRight (pyUpper sku) 2)).getD "Unknown Ukuran"))
    ∧ alGet (enrichRow dec df.cols r) "Category"
      = some (.str ((alGet dec.category (strTake (pyUpper sku) 3)).getD "Unknown Category"))
    ∧ alGet (enrichRow dec df.cols r) "Sub Category"
      = some (.str ((alGet dec.sub_category (strTake (pyUpper sku) 4)).getD
          "Unknown Sub Category"))
    ∧ alGet (enrichRow dec df.cols r) "Tahun Produksi" = some (.str "Unknown TahunProduksi")
    ∧ alGet (enrichRow dec df.cols r) "Season" = some (.str "Unknown Season")
    ∧ alGet (enrichRow dec df.cols r) "Singkatan Nama Produk"
      = some (.str "Unknown SingkatanNamaProduk")
    ∧ alGet (enrichRow dec df.cols r) "Warna Produk" = some (.str "Unknown WarnaProduk")
    ∧ ∀ (df' : DataFrame) (d : SkuDecoder),
        (enrich_dataframe_with_sku_info df' d).rows.length = df'.rows.length := by
  have hrow := enrichRow_pattern_fail dec df.cols r sku hsku hre h2 h3 hT hS hP hW
  refine ⟨?_, hrow.1, hrow.2.1, hrow.2.2.1, hrow.2.2.2.1, hrow.2.2.2.2.1,
    hrow.2.2.2.2.2.1, hrow.2.2.2.2.2.2.1, fun df' d => enrich_preserves_row_count df' d⟩
  have hmem : "SKU" ∈ df.cols := by simpa using hcols
  have hne' : ¬ df.rows = [] := by simpa [List.isEmpty_iff] using hne
  simp [enrich_dataframe_with_sku_info, hmem, hne']

theorem C6_slicing_regex_independent_witness :
    (enrich_dataframe_with_sku_info
        ⟨["SKU"], [[("SKU", .str "HELLOWORLD")]]⟩
        { SkuDecoder.empty with
            ukuran := [("LD", "A Size")], category := [("HEL", "A Category")],
            sub_category := [("HELL", "A Sub Category")] }).rows
      = [[(("SKU" : String), Value.str "HELLOWORLD")]].map
          (enrichRow
            { SkuDecoder.empty with
                ukuran := [("LD", "A Size")], category := [("HEL", "A Category")],
                sub_category := [("HELL", "A Sub Category")] } ["SKU"])
    ∧ alGet (enrichRow
        { SkuDecoder.empty with
            ukuran := [("LD", "A Size")], category := [("HEL", "A Category")],
            sub_category := [("HELL", "A Sub Category")] } ["SKU"]
        [("SKU", .str "HELLOWORLD")]) "Size Produk"
      = some (.str ((alGet [("LD", "A Size")] (strTakeRight (pyUpper "HELLOWORLD") 2)).getD
          "Unknown Ukuran"))
    ∧ alGet (enrichRow
        { SkuDecoder.empty with
            ukuran := [("LD", "A Size")], category := [("HEL", "A Category")],
            sub_category := [("HELL", "A Sub Category")] } ["SKU"]
        [("SKU", .str "HELLOWORLD")]) "Category"
      = some (.str ((alGet [("HEL", "A Category")] (strTake (pyUpper "HELLOWORLD") 3)).getD
          "Unknown Category"))
    ∧ alGet (enrichRow
        { SkuDecoder.empty with
            ukuran := [("LD", "A Size")], category := [("HEL", "A Category")],
            sub_category := [("HELL", "A Sub Category")] } ["SKU"]
        [("SKU", .str "HELLOWORLD")]) "Sub Category"
      = some (.str ((alGet [("HELL", "A Sub Category")] (strTake (pyUpper "HELLOWORLD") 4)).getD
          "Unknown Sub Category"))
    ∧ alGet (enrichRow
        { SkuDecoder.empty with
            ukuran := [("LD", "A Size")], category := [("HEL", "A Category")],
            sub_category := [("HELL", "A Sub Category")] } ["SKU"]
        [("SKU", .str "HELLOWORLD")]) "Tahun Produksi" = some (.str "Unknown TahunProduksi")
    ∧ alGet (enrichRow
        { SkuDecoder.empty with
            ukuran := [("LD", "A Size")], category := [("HEL", "A Category")],
            sub_category := [("HELL", "A Sub Category")] } ["SKU"]
        [("SKU", .str "HELLOWORLD")]) "Season" = some (.str "Unknown Season")
    ∧ alGet (enrichRow
        { SkuDecoder.empty with
            ukuran := [("LD", "A Size")], category := [("HEL", "A Category")],
            sub_category := [("HELL", "A Sub Category")] } ["SKU"]
        [("SKU", .str "HELLOWORLD")]) "Singkatan Nama Produk"
      = some (.str "Unknown SingkatanNamaProduk")
    ∧ alGet (enrichRow
        { SkuDecoder.empty with
            ukuran := [("LD", "A Size")], category := [("HEL", "A Category")],
            sub_category := [("HELL", "A Sub Category")] } ["SKU"]
        [("SKU", .str "HELLOWORLD")]) "Warna Produk" = some (.str "Unknown WarnaProduk")
    ∧ ∀ (df' : DataFrame) (d : SkuDecoder),
        (enrich_dataframe_with_sku_info df' d).rows.length = df'.rows.length :=
  C6_slicing_regex_independent
    ⟨["SKU"], [[("SKU", .str "HELLOWORLD")]]⟩
    { SkuDecoder.empty with
        ukuran := [("LD", "A Size")], category := [("HEL", "A Category")],
        sub_category := [("HELL", "A Sub Category")] }
    [("SKU", .str "HELLOWORLD")] "HELLOWORLD"
    (by decide) (by decide) (by decide) (by decide) (by decide) (by decide)
    (by decide) (by decide) (by decide) (by decide)
